import Mathlib

/-!
Shallow embedding of the comment-server repository.

The HTTP service in `src/comment-server/server.js` is, in full:

  const express = require('express');
  const cors = require('cors');
  const app = express();
  const port = 3100;
  app.use(cors());
  app.use(express.static(__dirname));
  app.listen(port, ...);

i.e. an Express application whose only middleware are `cors()` (default
options) and `express.static(__dirname)`.  No route handlers and no body
parser are registered.  We embed the request/response behaviour of this
middleware chain faithfully:

* `cors()` (default options): for an `OPTIONS` request it answers the
  preflight itself with status 204; for every other request it sets the
  `Access-Control-Allow-Origin` header and passes the request on.
* `express.static(dir)` (default options, `fallthrough: true`): for `GET`
  and `HEAD` requests it looks the URL path up in the directory.  If the
  file exists it responds 200 with the file's bytes; if the file is
  missing (`ENOENT`) it calls `next()`; on any other read error it calls
  `next(err)`.  For all other methods it calls `next()` untouched.
* Express's final handler answers an unhandled request with 404, and the
  default error handler answers a forwarded error with 500.  Headers
  already set on the response (such as the CORS header) are kept.

The editor-side `locateAnchor` heuristic (the same function appears in the
client contribution embedded in `server.js` lines 610-642 and in
`src/unnamed/part_001` lines 568-600) is embedded over an abstract text
model providing `getValueInRange`, `findNextMatch` and `findMatches`.
-/

namespace PairUI

/-- HTTP methods the embedding distinguishes. -/
inductive Method
  | get
  | head
  | post
  | delete
  | options
deriving DecidableEq, Repr

/-- An HTTP request: method, URL path, and an optional raw body.
The server registers no body parser, so the body is never inspected. -/
structure Request where
  method : Method
  path : String
  body : Option String
deriving DecidableEq, Repr

/-- State of one file on the server's disk, as seen by a read:
present with contents, absent (`ENOENT`), or failing with an I/O error. -/
inductive FileState
  | missing
  | readError
  | content (s : String)
deriving DecidableEq, Repr

/-- The server's directory: URL path ↦ state of the corresponding file. -/
def Disk : Type := String → FileState

/-- An HTTP response: status, optional body, and whether the
`Access-Control-Allow-Origin` header is present on it. -/
structure Response where
  status : Nat
  body : Option String
  corsAllowOrigin : Bool
deriving DecidableEq, Repr

/-- What a middleware does with a request: respond itself, pass it on
(`next()`), or forward an error (`next(err)`). -/
inductive MwOutcome
  | respond (status : Nat) (body : Option String)
  | next
  | nextError
deriving DecidableEq, Repr

/-- Result of running one middleware: its outcome, the response headers
set so far (only the CORS header matters here), and the disk after it. -/
structure MwResult where
  outcome : MwOutcome
  cors : Bool
  disk : Disk

/-- A middleware reads the disk, the headers set so far, and the request. -/
def Middleware : Type := Disk → Bool → Request → MwResult

/-- `cors()` with default options: answers `OPTIONS` preflights with 204
itself; otherwise sets `Access-Control-Allow-Origin` and calls `next()`. -/
def corsMiddleware : Middleware := fun disk _cors req =>
  if req.method = Method.options then
    { outcome := MwOutcome.respond 204 none, cors := true, disk := disk }
  else
    { outcome := MwOutcome.next, cors := true, disk := disk }

/-- `express.static(__dirname)` with default options: serves files for
`GET`/`HEAD`, falls through on a missing file, forwards other read
errors, and ignores every other method. It never writes. -/
def staticMiddleware : Middleware := fun disk cors req =>
  if req.method = Method.get ∨ req.method = Method.head then
    match disk req.path with
    | FileState.content s =>
        { outcome := MwOutcome.respond 200
            (if req.method = Method.get then some s else none),
          cors := cors, disk := disk }
    | FileState.missing =>
        { outcome := MwOutcome.next, cors := cors, disk := disk }
    | FileState.readError =>
        { outcome := MwOutcome.nextError, cors := cors, disk := disk }
  else
    { outcome := MwOutcome.next, cors := cors, disk := disk }

/-- Run a middleware chain: an unhandled request reaches Express's final
handler (404); a forwarded error reaches the default error handler (500).
Headers set earlier stay on the response. -/
def runMiddlewares : List Middleware → Disk → Bool → Request → Response × Disk
  | [], disk, cors, _req => ({ status := 404, body := none, corsAllowOrigin := cors }, disk)
  | mw :: rest, disk, cors, req =>
    match mw disk cors req with
    | { outcome := MwOutcome.respond st b, cors := c, disk := d } =>
        ({ status := st, body := b, corsAllowOrigin := c }, d)
    | { outcome := MwOutcome.next, cors := c, disk := d } =>
        runMiddlewares rest d c req
    | { outcome := MwOutcome.nextError, cors := c, disk := d } =>
        ({ status := 500, body := none, corsAllowOrigin := c }, d)

/-- The application of `server.js`: `app.use(cors()); app.use(express.static(__dirname))`. -/
def app : List Middleware := [corsMiddleware, staticMiddleware]

/-- One request/response cycle of the server. -/
def serverStep (disk : Disk) (req : Request) : Response × Disk :=
  runMiddlewares app disk false req

/-! ### Comment records

The record schema of the client contribution (`interface ExternalComment`
with `interface AnchorRange` in `src/unnamed/part_001` and in the
contribution embedded in `server.js`).  The store itself is
schema-agnostic: it serves the bytes of `comment.json`.  The
serialization below links "the stored collection" of the spec's claims to
the file contents the code actually serves. -/

/-- `interface AnchorRange`: position plus the text snapshot taken when
the comment was made. -/
structure AnchorRange where
  startLineNumber : Nat
  startColumn : Nat
  endLineNumber : Nat
  endColumn : Nat
  text : String
deriving DecidableEq, Repr

/-- `interface ExternalComment`: a comment record as stored in the
external JSON file. -/
structure ExternalComment where
  id : String
  file : String
  type : String
  title : String
  content : String
  suggestion : String
  is_suggesting : Bool
  anchor : AnchorRange
deriving DecidableEq, Repr

/-- JSON string escaping for quote and backslash. -/
def escapeJson (s : String) : String :=
  String.join (s.toList.map fun c =>
    if c = '"' then "\\\"" else if c = '\\' then "\\\\" else String.singleton c)

/-- A JSON string literal. -/
def jsonStr (s : String) : String := "\"" ++ escapeJson s ++ "\""

/-- JSON serialization of an anchor. -/
def serializeAnchor (a : AnchorRange) : String :=
  "\x7b\"startLineNumber\":" ++ toString a.startLineNumber ++
  ",\"startColumn\":" ++ toString a.startColumn ++
  ",\"endLineNumber\":" ++ toString a.endLineNumber ++
  ",\"endColumn\":" ++ toString a.endColumn ++
  ",\"text\":" ++ jsonStr a.text ++ "\x7d"

/-- JSON serialization of one comment record, fields in declaration order. -/
def serializeComment (c : ExternalComment) : String :=
  "\x7b\"id\":" ++ jsonStr c.id ++
  ",\"file\":" ++ jsonStr c.file ++
  ",\"type\":" ++ jsonStr c.type ++
  ",\"title\":" ++ jsonStr c.title ++
  ",\"content\":" ++ jsonStr c.content ++
  ",\"suggestion\":" ++ jsonStr c.suggestion ++
  ",\"is_suggesting\":" ++ (if c.is_suggesting then "true" else "false") ++
  ",\"anchor\":" ++ serializeAnchor c.anchor ++ "\x7d"

/-- JSON serialization of the whole collection, in storage order. -/
def serializeComments (cs : List ExternalComment) : String :=
  "[" ++ String.intercalate "," (cs.map serializeComment) ++ "]"

/-! ### The editor-side anchor re-location heuristic -/

/-- A Monaco position (`new monaco.Position(line, column)`). -/
structure MPosition where
  lineNumber : Nat
  column : Nat
deriving DecidableEq, Repr

/-- A Monaco range (`new monaco.Range(sl, sc, el, ec)`). -/
structure MRange where
  startLineNumber : Nat
  startColumn : Nat
  endLineNumber : Nat
  endColumn : Nat
deriving DecidableEq, Repr

/-- A Monaco find match: only its range matters to `locateAnchor`. -/
structure FindMatch where
  range : MRange
deriving DecidableEq, Repr

/-- The slice of `monaco.editor.ITextModel` that `locateAnchor` uses:
`getValueInRange`, `findNextMatch` (from a start position) and
`findMatches` (over the whole document). -/
structure TextModel where
  getValueInRange : MRange → String
  findNextMatch : String → MPosition → Option FindMatch
  findMatches : String → List FindMatch

/-- Distance used by the `allMatches.reduce` step of `locateAnchor`:
`Math.abs(r.startLineNumber - a.startLineNumber)`. -/
def anchorDist (a : AnchorRange) (r : MRange) : Nat :=
  ((r.startLineNumber : Int) - (a.startLineNumber : Int)).natAbs

/-- The `findMatches` fallback of `locateAnchor`: if any match exists,
take the one whose start line is nearest to the stored start line
(`reduce` keeps the earlier match on ties); otherwise fall back to the
original coordinates. -/
def locateByAllMatches (model : TextModel) (a : AnchorRange)
    (originalRange : MRange) : MRange :=
  match model.findMatches a.text with
  | [] => originalRange
  | m :: ms =>
    (ms.foldl (fun prev curr =>
      if anchorDist a curr.range < anchorDist a prev.range then curr else prev) m).range

/-- `locateAnchor(model, a)` (client contribution, `server.js` lines
610-642 and `src/unnamed/part_001` lines 568-600): if the text now at
the stored coordinates equals the stored snippet, return those
coordinates; else try `findNextMatch` from the stored start position and
accept it if it does not start above the stored line; else fall back to
the nearest of `findMatches`, and finally to the original coordinates. -/
def locateAnchor (model : TextModel) (a : AnchorRange) : MRange :=
  let originalRange : MRange :=
    { startLineNumber := a.startLineNumber, startColumn := a.startColumn,
      endLineNumber := a.endLineNumber, endColumn := a.endColumn }
  let currentText := model.getValueInRange originalRange
  if currentText = a.text then
    originalRange
  else
    let searchStart : MPosition :=
      { lineNumber := a.startLineNumber, column := a.startColumn }
    match model.findNextMatch a.text searchStart with
    | some m =>
        if a.startLineNumber ≤ m.range.startLineNumber then m.range
        else locateByAllMatches model a originalRange
    | none => locateByAllMatches model a originalRange

/-! ### Concrete sample values (the spec's §8 concrete scenario) -/

/-- The anchor of the spec's concrete scenario. -/
def sampleAnchor : AnchorRange :=
  { startLineNumber := 1, startColumn := 1, endLineNumber := 1, endColumn := 5,
    text := "let x" }

/-- The valid comment record of the spec's concrete scenario. -/
def sampleComment : ExternalComment :=
  { id := "c-1", file := "/a.ts", type := "red underline", title := "",
    content := "fix this", suggestion := "", is_suggesting := false,
    anchor := sampleAnchor }

/-- A record with an empty `content` field: invalid per the spec's
creation validation. -/
def invalidComment : ExternalComment :=
  { sampleComment with content := "" }

/-- A disk whose `comment.json` has the given contents and which holds no
other file. -/
def diskWith (s : String) : Disk :=
  fun p => if p = "/comment.json" then FileState.content s else FileState.missing

/-- A fresh deployment: no file exists, in particular no `comment.json`. -/
def freshDisk : Disk := fun _ => FileState.missing

/-- A disk whose `comment.json` exists but cannot be read. -/
def errorDisk : Disk :=
  fun p => if p = "/comment.json" then FileState.readError else FileState.missing

/-- The store holding exactly the sample record. -/
def oneRecordDisk : Disk := diskWith (serializeComments [sampleComment])

/-- The store holding the empty collection (`comment.json` = `[]`). -/
def emptyStoreDisk : Disk := diskWith (serializeComments [])

/-- `POST /comments` carrying the sample record as JSON body. -/
def postSampleReq : Request :=
  { method := Method.post, path := "/comments",
    body := some (serializeComment sampleComment) }

/-- `POST /comments` carrying a record whose `content` field is empty. -/
def postInvalidReq : Request :=
  { method := Method.post, path := "/comments",
    body := some (serializeComment invalidComment) }

/-- `GET /comment.json`. -/
def getCommentJsonReq : Request :=
  { method := Method.get, path := "/comment.json", body := none }

/-- `DELETE /comments/c-1`. -/
def deleteSampleReq : Request :=
  { method := Method.delete, path := "/comments/c-1", body := none }

/-- A range far from the sample anchor, used as a decoy search result. -/
def farRange : MRange :=
  { startLineNumber := 9, startColumn := 9, endLineNumber := 9, endColumn := 9 }

/-- A text model whose text at every range is the sample snippet and whose
search primitives deliberately point elsewhere: used to exhibit that
`locateAnchor` ignores the search results when the snapshot still matches. -/
def snapshotModel : TextModel :=
  { getValueInRange := fun _ => "let x",
    findNextMatch := fun _ _ => some { range := farRange },
    findMatches := fun _ => [{ range := farRange }] }

end PairUI

namespace PairUI

/-! ## Theorems for the claims -/

/-- Claim C1 (code_bug evidence): the server registers no `POST` route and
no body parser, so a `POST /comments` carrying a valid JSON comment record
is answered 404 by Express's final handler — not 201 and not 400 — and the
disk (hence the stored collection) is left unchanged, against every store
state. -/
theorem post_comments_is_unhandled :
    ∀ d : Disk,
      (serverStep d postSampleReq).1.status = 404 ∧
      (serverStep d postSampleReq).2 = d :=
  fun _ => ⟨rfl, rfl⟩

/-- Claim C2 (code_bug evidence): with the store holding exactly one
record of id `c-1`, `DELETE /comments/c-1` is answered 404 (no `DELETE`
route is registered), the disk is unchanged, and the record is still in
`comment.json` — the claimed 204-with-removal never happens. -/
theorem delete_comments_is_unhandled :
    (serverStep oneRecordDisk deleteSampleReq).1.status = 404 ∧
    (serverStep oneRecordDisk deleteSampleReq).2 = oneRecordDisk ∧
    (serverStep oneRecordDisk deleteSampleReq).2 "/comment.json" =
      FileState.content (serializeComments [sampleComment]) :=
  ⟨rfl, rfl, rfl⟩

/-- Claim C3: `GET /comment.json` serves the collection document verbatim:
whenever `comment.json` holds the serialization of the stored records, the
response is 200 with exactly that serialization as body (all records, in
storage order, no filtering) and the disk is untouched; and when the read
of `comment.json` fails, the default error handler answers 500. -/
theorem get_comment_json_contract :
    (∀ (recs : List ExternalComment) (disk : Disk),
        disk "/comment.json" = FileState.content (serializeComments recs) →
        (serverStep disk getCommentJsonReq).1 =
          { status := 200, body := some (serializeComments recs),
            corsAllowOrigin := true } ∧
        (serverStep disk getCommentJsonReq).2 = disk) ∧
    (∀ disk : Disk,
        disk "/comment.json" = FileState.readError →
        (serverStep disk getCommentJsonReq).1.status = 500) := by
  constructor
  · intro recs disk h
    constructor <;>
      simp [serverStep, runMiddlewares, app, corsMiddleware, staticMiddleware,
        getCommentJsonReq, h]
  · intro disk h
    simp [serverStep, runMiddlewares, app, corsMiddleware, staticMiddleware,
      getCommentJsonReq, h]

/-- Witness for C3: the contract evaluated on the store holding exactly
the sample record, and on a store whose `comment.json` is unreadable. -/
theorem get_comment_json_contract_witness :
    (serverStep oneRecordDisk getCommentJsonReq).1 =
      { status := 200, body := some (serializeComments [sampleComment]),
        corsAllowOrigin := true } ∧
    (serverStep errorDisk getCommentJsonReq).1.status = 500 :=
  ⟨(get_comment_json_contract.1 [sampleComment] oneRecordDisk rfl).1,
   get_comment_json_contract.2 errorDisk rfl⟩

/-- Claim C4 (code_bug evidence): on a fresh deployment (no `comment.json`
on disk) `GET /comment.json` is answered 404 — `express.static` falls
through on a missing file and no handler produces the claimed 200 with an
empty JSON array. -/
theorem fresh_get_comment_json_is_404 :
    (serverStep freshDisk getCommentJsonReq).1.status = 404 ∧
    (serverStep freshDisk getCommentJsonReq).1.body ≠
      some (serializeComments []) :=
  ⟨rfl, by decide⟩

/-- Claim C5 (code_bug evidence): posting the valid sample record to the
empty store and then issuing `GET /comment.json` yields the serialization
of the still-empty collection, which differs from the serialization of the
one-record collection — the round-trip never contains the posted record. -/
theorem post_then_get_loses_record :
    (serverStep emptyStoreDisk postSampleReq).1.status = 404 ∧
    (serverStep (serverStep emptyStoreDisk postSampleReq).2
        getCommentJsonReq).1.body = some (serializeComments []) ∧
    serializeComments [] ≠ serializeComments [sampleComment] :=
  ⟨rfl, rfl, by decide⟩

/-- Counterexample for C6: a `POST /comments` whose record has an empty
`content` field is answered 404, not the claimed 400 — no validation step
exists; the request is rejected only because no route matches. -/
theorem post_invalid_not_400 :
    (serverStep emptyStoreDisk postInvalidReq).1.status = 404 ∧
    (serverStep emptyStoreDisk postInvalidReq).1.status ≠ 400 :=
  ⟨rfl, by decide⟩

/-- Claim C6 as amended: every `POST /comments` and every
`DELETE /comments/:id` — in particular a create with invalid fields and a
delete matching no record — is rejected with status 404 and performs no
mutation: the stored collection is exactly as before the request. -/
theorem rejected_requests_do_not_mutate :
    ∀ (d : Disk) (b : Option String) (i : String),
      (serverStep d ⟨Method.post, "/comments", b⟩).1.status = 404 ∧
      (serverStep d ⟨Method.post, "/comments", b⟩).2 = d ∧
      (serverStep d ⟨Method.delete, "/comments/" ++ i, none⟩).1.status = 404 ∧
      (serverStep d ⟨Method.delete, "/comments/" ++ i, none⟩).2 = d :=
  fun _ _ _ => ⟨rfl, rfl, rfl, rfl⟩

/-- Claim C7 (code_bug evidence): no successful create or delete operation
exists in the code — the create the spec's scenario says succeeds (valid
record, empty store) and the delete of an existing id are both answered
404 and leave the store untouched, so the claimed post-operation invariant
is about operations the server never performs. -/
theorem invariant_operations_never_occur :
    (serverStep emptyStoreDisk postSampleReq).1.status = 404 ∧
    (serverStep emptyStoreDisk postSampleReq).2 = emptyStoreDisk ∧
    (serverStep oneRecordDisk deleteSampleReq).1.status = 404 ∧
    (serverStep oneRecordDisk deleteSampleReq).2 = oneRecordDisk :=
  ⟨rfl, rfl, rfl, rfl⟩

/-- Claim C8: `app.use(cors())` runs before every other handler, so every
response the server produces — 200, 204, 404 and 500 alike, on every
method and path — carries the `Access-Control-Allow-Origin` header: no
same-origin restriction is applied to any endpoint. -/
theorem all_responses_allow_cross_origin :
    ∀ (d : Disk) (req : Request),
      (serverStep d req).1.corsAllowOrigin = true := by
  intro d req
  obtain ⟨m, p, b⟩ := req
  cases m <;> cases h : d p <;>
    simp [serverStep, runMiddlewares, app, corsMiddleware, staticMiddleware, h]

/-- Claim C9: the server registers no state-changing route — for every
request, on every store state, the request cycle returns the disk exactly
as it was: the service is read-only. -/
theorem server_never_writes :
    ∀ (d : Disk) (req : Request), (serverStep d req).2 = d := by
  intro d req
  obtain ⟨m, p, b⟩ := req
  cases m <;> cases h : d p <;>
    simp [serverStep, runMiddlewares, app, corsMiddleware, staticMiddleware, h]

/-- Claim C10: whenever the document text currently at the anchor's stored
coordinates equals the stored snippet, `locateAnchor` returns exactly the
range of those coordinates — for every text model, whatever its
`findNextMatch` and `findMatches` report, so no search result influences
the outcome. -/
theorem locateAnchor_exact_on_unchanged_text :
    ∀ (model : TextModel) (a : AnchorRange),
      model.getValueInRange
        { startLineNumber := a.startLineNumber, startColumn := a.startColumn,
          endLineNumber := a.endLineNumber, endColumn := a.endColumn } = a.text →
      locateAnchor model a =
        { startLineNumber := a.startLineNumber, startColumn := a.startColumn,
          endLineNumber := a.endLineNumber, endColumn := a.endColumn } := by
  intro model a h
  unfold locateAnchor
  simp [h]

/-- Witness for C10: on a model whose text at the stored coordinates still
matches the snippet but whose search primitives point at line 9,
`locateAnchor` returns the stored range `1:1-1:5`, ignoring the searches. -/
theorem locateAnchor_exact_witness :
    locateAnchor snapshotModel sampleAnchor =
      { startLineNumber := 1, startColumn := 1,
        endLineNumber := 1, endColumn := 5 } :=
  locateAnchor_exact_on_unchanged_text snapshotModel sampleAnchor (by rfl)

end PairUI
